import Mathlib

/-!
Verification of the CAN telemetry core of the `canbus_led` firmware.

The development shallowly embeds the decode-and-health subsystem of the
repository: the three protocol decoders, the frame-processing router with
its ring-buffer frame log, the batch-bounded drain loop, the bus health
monitor with its recovery cooldown, and the serial-line frame parser
(`src/can_handler.cpp`, `src/types.h`, `src/config.h`).  The repository
also ships a legacy monolithic firmware (`src/main.cpp`) with its own
health monitor and decoder; those are embedded separately under `Legacy`
names where the distinction matters.

Machine integers are modelled as `Nat` with explicit `% 2^w` at the points
where the C code truncates; `uint8_t` array cells are read through a
`byte` accessor that reduces modulo 256, mirroring the storage type.
-/

-- ========== config.h constants ==========

def ID_THROTTLE : Nat := 0x100
def ID_PEDALS : Nat := 0x101
def ID_RPM : Nat := 0x102
def ID_COOLANT : Nat := 0x103
def ID_OIL_PRESSURE : Nat := 0x104
def ID_FLAGS : Nat := 0x105
def ID_IGNITION : Nat := 0x106

def ID_RPM_TPS : Nat := 0x5F0
def ID_FUEL_IGN : Nat := 0x5F1
def ID_PRESSURES : Nat := 0x5F2
def ID_TEMPERATURES : Nat := 0x5F3
def ID_VOLTAGE_FLAGS : Nat := 0x5F4
def ID_GEAR_OIL : Nat := 0x5F5
def ID_VEHICLE_SPEED : Nat := 0x5F6
def ID_THROTTLE_SENSORS : Nat := 0x5F7

def ID_ENGINE_DATA_1 : Nat := 0x2000
def ID_ENGINE_DATA_2 : Nat := 0x2001
def ID_ENGINE_DATA_3 : Nat := 0x2002
def ID_ENGINE_DATA_4 : Nat := 0x2003
def ID_VEHICLE_DATA_1 : Nat := 0x2004
def ID_VEHICLE_DATA_2 : Nat := 0x2005
def ID_FLAGS_WARNINGS : Nat := 0x2006
def ID_ANALOG_INPUTS : Nat := 0x2007

def CAN_TIMEOUT_MS : Nat := 10
def MAX_MESSAGES_PER_LOOP : Nat := 5
def FRAME_LOG_SIZE : Nat := 50
def CAN_HEALTH_CHECK_INTERVAL : Nat := 5000
def CAN_RESTART_COOLDOWN : Nat := 10000

-- ========== twai_message_t (the Frame of the spec) ==========

/-- Embedding of `twai_message_t`: identifier, data length code, and the 8-byte
payload array.  The payload is modelled as a total function so that claims about
which indices the decoders read are expressible; the C array stores `uint8_t`,
so every read goes through `Frame.byte`, which reduces modulo 256. -/
structure Frame where
  identifier : Nat
  data_length_code : Nat
  data : Nat → Nat

/-- Reading `msg.data[i]`: the cell holds a `uint8_t`. -/
def Frame.byte (f : Frame) (i : Nat) : Nat := f.data i % 256

-- ========== types.h: VehicleState ==========

/-- Embedding of `VehicleState` from `src/types.h`, with its member
initializers as the default value. -/
structure VehicleState where
  rpm : Nat := 0
  throttlePercent : Nat := 0
  coolant10x : Nat := 600
  airTemp10x : Nat := 250
  oilPressure10kPa : Nat := 30
  fuelPressure10kPa : Nat := 300
  batteryVoltage100x : Nat := 1400
  ignitionTiming10x : Int := 150
  lambda100x : Nat := 100
  brakePercent : Nat := 0
  clutchPercent : Nat := 0
  handbrakePulled : Nat := 0
  vehicleSpeed10x : Nat := 0
  gear : Nat := 0
  revLimiter : Bool := false
  alsActive : Bool := false
  ignitionOn : Bool := false
  engineRunning : Bool := false
  launchControl : Bool := false
  flatShift : Bool := false
  rpmRedline : Nat := 6500
deriving DecidableEq, Repr

def initialVehicleState : VehicleState := {}

-- ========== Arduino constrain and unit helpers ==========

/-- Arduino `constrain(x, lo, hi)` on unsigned values. -/
def constrain (x lo hi : Nat) : Nat := if x < lo then lo else if x > hi then hi else x

/-- `convertKpaTimes10ToBarTenth` from `can_handler.cpp`. -/
def convertKpaTimes10ToBarTenth (raw : Nat) : Nat := raw / 100

/-- Two's-complement reinterpretation of a 16-bit value as `int16_t`. -/
def toInt16 (raw : Nat) : Int :=
  if raw % 65536 < 32768 then (raw % 65536 : Int) else (raw % 65536 : Int) - 65536

-- ========== processFrameCustom (can_handler.cpp, CAN_PROTOCOL = 0) ==========

/-- Embedding of `processFrameCustom`. -/
def processFrameCustom (msg : Frame) (state : VehicleState) : VehicleState :=
  if msg.identifier = ID_THROTTLE then
    if 1 ≤ msg.data_length_code then
      { state with throttlePercent := constrain (msg.byte 0) 0 100 }
    else state
  else if msg.identifier = ID_PEDALS then
    let state := if 1 ≤ msg.data_length_code then
      { state with brakePercent := constrain (msg.byte 0) 0 100 } else state
    let state := if 2 ≤ msg.data_length_code then
      { state with handbrakePulled := constrain (msg.byte 1) 0 100 } else state
    if 3 ≤ msg.data_length_code then
      { state with clutchPercent := constrain (msg.byte 2) 0 100 } else state
  else if msg.identifier = ID_RPM then
    if 2 ≤ msg.data_length_code then
      let rpm := (msg.byte 0 ||| (msg.byte 1 <<< 8)) % 65536
      { state with rpm := rpm, engineRunning := decide (rpm > 300) }
    else state
  else if msg.identifier = ID_COOLANT then
    if 2 ≤ msg.data_length_code then
      { state with coolant10x := (msg.byte 0 ||| (msg.byte 1 <<< 8)) % 65536 }
    else state
  else if msg.identifier = ID_OIL_PRESSURE then
    if 2 ≤ msg.data_length_code then
      { state with oilPressure10kPa := (msg.byte 0 ||| (msg.byte 1 <<< 8)) % 65536 }
    else state
  else if msg.identifier = ID_FLAGS then
    if 1 ≤ msg.data_length_code then
      { state with revLimiter := decide (msg.byte 0 &&& 0x01 ≠ 0),
                   alsActive := decide (msg.byte 0 &&& 0x02 ≠ 0) }
    else state
  else if msg.identifier = ID_IGNITION then
    if 1 ≤ msg.data_length_code then
      { state with ignitionOn := decide (msg.byte 0 ≠ 0) }
    else state
  else state

-- ========== processFrameLinkGeneric (CAN_PROTOCOL = 1) ==========

/-- Embedding of `processFrameLinkGeneric`. -/
def processFrameLinkGeneric (msg : Frame) (state : VehicleState) : VehicleState :=
  if msg.identifier = ID_RPM_TPS then
    let state := if 4 ≤ msg.data_length_code then
      let rpm32 := (msg.byte 0 ||| (msg.byte 1 <<< 8) ||| (msg.byte 2 <<< 16) |||
                    (msg.byte 3 <<< 24)) % 4294967296
      let rpm16 := constrain rpm32 0 65535 % 65536
      { state with rpm := rpm16, engineRunning := decide (rpm16 > 300) }
    else state
    if 6 ≤ msg.data_length_code then
      let tps := (msg.byte 4 ||| (msg.byte 5 <<< 8)) % 65536
      { state with throttlePercent := constrain (tps / 10) 0 100 }
    else state
  else if msg.identifier = ID_FUEL_IGN then
    let state := if 2 ≤ msg.data_length_code then
      { state with fuelPressure10kPa :=
          convertKpaTimes10ToBarTenth ((msg.byte 0 ||| (msg.byte 1 <<< 8)) % 65536) }
    else state
    if 4 ≤ msg.data_length_code then
      { state with ignitionTiming10x := toInt16 (msg.byte 2 ||| (msg.byte 3 <<< 8)) }
    else state
  else if msg.identifier = ID_PRESSURES then
    if 6 ≤ msg.data_length_code then
      { state with lambda100x := (msg.byte 4 ||| (msg.byte 5 <<< 8)) % 65536 }
    else state
  else if msg.identifier = ID_TEMPERATURES then
    let state := if 2 ≤ msg.data_length_code then
      { state with coolant10x := (msg.byte 0 ||| (msg.byte 1 <<< 8)) % 65536 }
    else state
    if 4 ≤ msg.data_length_code then
      { state with airTemp10x := (msg.byte 2 ||| (msg.byte 3 <<< 8)) % 65536 }
    else state
  else if msg.identifier = ID_VOLTAGE_FLAGS then
    let state := if 2 ≤ msg.data_length_code then
      { state with batteryVoltage100x := (msg.byte 0 ||| (msg.byte 1 <<< 8)) % 65536 }
    else state
    if 3 ≤ msg.data_length_code then
      { state with revLimiter := decide (msg.byte 2 &&& 0x01 ≠ 0),
                   launchControl := decide (msg.byte 2 &&& 0x02 ≠ 0),
                   flatShift := decide (msg.byte 2 &&& 0x04 ≠ 0),
                   ignitionOn := decide (msg.byte 2 &&& 0x80 ≠ 0) }
    else state
  else if msg.identifier = ID_GEAR_OIL then
    let state := if 1 ≤ msg.data_length_code then
      { state with gear := msg.byte 0 }
    else state
    if 4 ≤ msg.data_length_code then
      { state with oilPressure10kPa :=
          convertKpaTimes10ToBarTenth ((msg.byte 2 ||| (msg.byte 3 <<< 8)) % 65536) }
    else state
  else if msg.identifier = ID_VEHICLE_SPEED then
    if 2 ≤ msg.data_length_code then
      { state with vehicleSpeed10x := (msg.byte 0 ||| (msg.byte 1 <<< 8)) % 65536 }
    else state
  else if msg.identifier = ID_THROTTLE_SENSORS then
    state
  else state

-- ========== processFrameLinkGeneric2 (CAN_PROTOCOL = 2) ==========

/-- Embedding of `processFrameLinkGeneric2`. -/
def processFrameLinkGeneric2 (msg : Frame) (state : VehicleState) : VehicleState :=
  if msg.identifier = ID_ENGINE_DATA_1 then
    let state := if 2 ≤ msg.data_length_code then
      let rpm := (msg.byte 0 ||| (msg.byte 1 <<< 8)) % 65536
      { state with rpm := rpm, engineRunning := decide (rpm > 300) }
    else state
    let state := if 4 ≤ msg.data_length_code then
      let tps := (msg.byte 2 ||| (msg.byte 3 <<< 8)) % 65536
      { state with throttlePercent := constrain (tps / 10) 0 100 }
    else state
    let state := if 6 ≤ msg.data_length_code then
      { state with coolant10x := (msg.byte 4 ||| (msg.byte 5 <<< 8)) % 65536 }
    else state
    if 8 ≤ msg.data_length_code then
      { state with airTemp10x := (msg.byte 6 ||| (msg.byte 7 <<< 8)) % 65536 }
    else state
  else if msg.identifier = ID_ENGINE_DATA_2 then
    let state := if 4 ≤ msg.data_length_code then
      { state with batteryVoltage100x := (msg.byte 2 ||| (msg.byte 3 <<< 8)) % 65536 }
    else state
    let state := if 6 ≤ msg.data_length_code then
      { state with fuelPressure10kPa := (msg.byte 4 ||| (msg.byte 5 <<< 8)) % 65536 }
    else state
    if 8 ≤ msg.data_length_code then
      { state with oilPressure10kPa := (msg.byte 6 ||| (msg.byte 7 <<< 8)) % 65536 }
    else state
  else if msg.identifier = ID_ENGINE_DATA_3 then
    let state := if 2 ≤ msg.data_length_code then
      { state with lambda100x := (msg.byte 0 ||| (msg.byte 1 <<< 8)) % 65536 }
    else state
    if 4 ≤ msg.data_length_code then
      { state with ignitionTiming10x := toInt16 (msg.byte 2 ||| (msg.byte 3 <<< 8)) }
    else state
  else if msg.identifier = ID_VEHICLE_DATA_1 then
    let state := if 2 ≤ msg.data_length_code then
      { state with vehicleSpeed10x := (msg.byte 0 ||| (msg.byte 1 <<< 8)) % 65536 }
    else state
    let state := if 3 ≤ msg.data_length_code then
      { state with gear := msg.byte 2 }
    else state
    if 4 ≤ msg.data_length_code then
      { state with launchControl := decide (msg.byte 3 &&& 0x01 ≠ 0),
                   flatShift := decide (msg.byte 3 &&& 0x02 ≠ 0) }
    else state
  else if msg.identifier = ID_FLAGS_WARNINGS then
    if 1 ≤ msg.data_length_code then
      { state with revLimiter := decide (msg.byte 0 &&& 0x01 ≠ 0),
                   ignitionOn := decide (msg.byte 0 &&& 0x80 ≠ 0) }
    else state
  else state

-- ========== Protocol selection (CAN_PROTOCOL build-time choice) ==========

/-- The build-time `CAN_PROTOCOL` choice routing inside `processFrame`. -/
inductive ProtoChoice where
  | custom
  | linkGeneric
  | linkGeneric2
deriving DecidableEq, Repr

/-- Dispatch of `processFrame` to the decoder selected by `CAN_PROTOCOL`. -/
def decodeBy (p : ProtoChoice) (msg : Frame) (state : VehicleState) : VehicleState :=
  match p with
  | ProtoChoice.custom => processFrameCustom msg state
  | ProtoChoice.linkGeneric => processFrameLinkGeneric msg state
  | ProtoChoice.linkGeneric2 => processFrameLinkGeneric2 msg state

-- ========== Frame log ring buffer (can_handler.cpp globals) ==========

/-- `FrameLogEntry` from `can_handler.h`. -/
structure FrameLogEntry where
  timestamp : Nat
  message : Frame

instance : Inhabited Frame := ⟨⟨0, 0, fun _ => 0⟩⟩

instance : Inhabited FrameLogEntry := ⟨⟨0, default⟩⟩

/-- The globals `frameLog` (array of `FRAME_LOG_SIZE` entries) and
`frameLogIndex`. -/
structure FrameLogState where
  entries : List FrameLogEntry
  frameLogIndex : Nat

/-- The insertion performed by `processFrame`:
`frameLog[frameLogIndex] = entry; frameLogIndex = (frameLogIndex + 1) % FRAME_LOG_SIZE;`. -/
def frameLogInsert (ls : FrameLogState) (e : FrameLogEntry) : FrameLogState :=
  { entries := ls.entries.set ls.frameLogIndex e,
    frameLogIndex := (ls.frameLogIndex + 1) % FRAME_LOG_SIZE }

/-- The zero-initialised frame log at boot. -/
def initialFrameLog : FrameLogState :=
  { entries := List.replicate FRAME_LOG_SIZE default, frameLogIndex := 0 }

/-- The logical content of the ring buffer, oldest entry first: the slots from
the write index to the end of the array, then the slots before the write
index. -/
def FrameLogState.contents (ls : FrameLogState) : List FrameLogEntry :=
  ls.entries.drop ls.frameLogIndex ++ ls.entries.take ls.frameLogIndex

-- ========== processFrame router (can_handler.cpp) ==========

/-- The mutable globals touched by `processFrame` and `receiveAndProcessCan`:
the vehicle state, the frame log, and `lastCanMessageTime`. -/
structure RouterState where
  vstate : VehicleState
  log : FrameLogState
  lastCanMessageTime : Nat

/-- Embedding of `processFrame`: records the receive time, appends the frame to
the log ring buffer, and routes to the decoder selected by `CAN_PROTOCOL`.
`now` is the value of `millis()`. -/
def processFrame (p : ProtoChoice) (now : Nat) (msg : Frame) (rs : RouterState) : RouterState :=
  { vstate := decodeBy p msg rs.vstate,
    log := frameLogInsert rs.log ⟨now, msg⟩,
    lastCanMessageTime := now }

-- ========== CanStatus (types.h) and TWAI driver status ==========

/-- `CanStatus` from `src/types.h`. -/
inductive CanStatus where
  | STOPPED
  | RUNNING
  | BUS_OFF
  | RECOVERING
  | FAILED
deriving DecidableEq, Repr

/-- The TWAI driver bus states consulted by the monitors. -/
inductive TwaiState where
  | TWAI_STATE_STOPPED
  | TWAI_STATE_RUNNING
  | TWAI_STATE_BUS_OFF
  | TWAI_STATE_RECOVERING
deriving DecidableEq, Repr

/-- The fields of `twai_status_info_t` consulted by the monitors. -/
structure TwaiStatusInfo where
  state : TwaiState
  rx_error_counter : Nat
  tx_error_counter : Nat
  msgs_to_rx : Nat
deriving DecidableEq, Repr

/-- `uint32_t` subtraction `a - b` as computed by the C timing comparisons. -/
def usub32 (a b : Nat) : Nat := (a % 4294967296 + 4294967296 - b % 4294967296) % 4294967296

-- ========== monitorCanHealth / attemptCanRecovery (can_handler.cpp) ==========

/-- The mutable globals of the health monitor in `can_handler.cpp`. -/
structure MonitorState where
  canBusStatus : CanStatus
  canErrorMessage : String
  lastCanHealthCheck : Nat
  canRestartAttemptTime : Nat
deriving DecidableEq, Repr

/-- Embedding of `attemptCanRecovery`.  `recoveryOk` is the result of the
driver call `twai_initiate_recovery()`; the returned `Bool` records whether
that driver call was issued at all (`false` when the cooldown skipped it). -/
def attemptCanRecovery (s : MonitorState) (now : Nat) (recoveryOk : Bool) :
    MonitorState × Bool :=
  if usub32 now s.canRestartAttemptTime < CAN_RESTART_COOLDOWN then (s, false)
  else
    let s1 := { s with canRestartAttemptTime := now }
    if recoveryOk then
      ({ s1 with canBusStatus := CanStatus.RECOVERING,
                 canErrorMessage := "CAN bus recovery in progress..." }, true)
    else (s1, true)

/-- Embedding of `monitorCanHealth` from `can_handler.cpp`.  `now` is
`millis()`, `info` is the result of `twai_get_status_info` (`none` when the
driver call fails), `recoveryOk` is the result a recovery request would
return.  The `Bool` records whether a `twai_initiate_recovery` call was
issued during this poll. -/
def monitorCanHealth (s : MonitorState) (now : Nat) (info : Option TwaiStatusInfo)
    (recoveryOk : Bool) : MonitorState × Bool :=
  if s.canBusStatus ≠ CanStatus.RUNNING then (s, false)
  else if usub32 now s.lastCanHealthCheck < CAN_HEALTH_CHECK_INTERVAL then (s, false)
  else
    let s1 := { s with lastCanHealthCheck := now }
    match info with
    | none => (s1, false)
    | some st =>
      if st.state = TwaiState.TWAI_STATE_BUS_OFF then
        attemptCanRecovery
          { s1 with canBusStatus := CanStatus.BUS_OFF,
                    canErrorMessage := "CAN bus in BUS-OFF. Check wiring and termination." }
          now recoveryOk
      else (s1, false)

-- ========== receiveAndProcessCan (can_handler.cpp) ==========

/-- Result of one `receiveAndProcessCan` invocation: the updated globals, how
many frames were decoded (`processFrame` calls), how many `twai_receive`
calls were made, and the returned `Bool`. -/
structure DrainResult where
  rstate : RouterState
  framesProcessed : Nat
  receiveCalls : Nat
  retval : Bool

/-- The non-blocking drain loop of `receiveAndProcessCan`.  `rx k` is the
result of the `k`-th `twai_receive` call of this invocation (`none` for a
timeout / empty queue); `fuel` is `maxMessages - messagesProcessed`, so the
loop guard `messagesProcessed < maxMessages` is `fuel ≠ 0`.  Returns the
updated state, the number of frames processed and the number of receive
calls made by the loop. -/
def drainLoop (p : ProtoChoice) (now : Nat) (rx : Nat → Option Frame) :
    Nat → Nat → RouterState → RouterState × Nat × Nat
  | 0, _, rs => (rs, 0, 0)
  | fuel + 1, k, rs =>
    match rx k with
    | some msg =>
      let out := drainLoop p now rx fuel (k + 1) (processFrame p now msg rs)
      (out.1, out.2.1 + 1, out.2.2 + 1)
    | none => (rs, 0, 1)

/-- Embedding of `receiveAndProcessCan`: one blocking-with-timeout receive,
then non-blocking receives while `messagesProcessed < maxMessages`, stopping
at the first failed receive; returns whether any frame was processed. -/
def receiveAndProcessCan (p : ProtoChoice) (status : CanStatus) (now : Nat)
    (rx : Nat → Option Frame) (maxMessages : Nat) (rs : RouterState) : DrainResult :=
  if status ≠ CanStatus.RUNNING then ⟨rs, 0, 0, false⟩
  else
    match rx 0 with
    | some msg =>
      let out := drainLoop p now rx (maxMessages - 1) 1 (processFrame p now msg rs)
      ⟨out.1, out.2.1 + 1, out.2.2 + 1, true⟩
    | none =>
      let out := drainLoop p now rx maxMessages 1 rs
      ⟨out.1, out.2.1, out.2.2 + 1, decide (0 < out.2.1)⟩

-- ========== Serial CAN bridge parser (can_handler.cpp) ==========

/-- Embedding of `hexCharToNibble`: hex digit value, or `-1` for any other
character (the source returns `int8_t`). -/
def hexCharToNibble (c : Char) : Int :=
  if '0' ≤ c ∧ c ≤ '9' then (c.toNat : Int) - ('0'.toNat : Int)
  else if 'A' ≤ c ∧ c ≤ 'F' then (c.toNat : Int) - ('A'.toNat : Int) + 10
  else if 'a' ≤ c ∧ c ≤ 'f' then (c.toNat : Int) - ('a'.toNat : Int) + 10
  else -1

/-- Embedding of `parseHexBytes`: consumes pairs of characters while at least
two characters remain and fewer than `maxLen` bytes were produced; a non-hex
character in a consumed pair fails the whole parse; a trailing odd character
or trailing excess characters are ignored. -/
def parseHexBytes : List Char → Nat → Option (List Nat)
  | c1 :: c2 :: rest, maxLen + 1 =>
    let high := hexCharToNibble c1
    let low := hexCharToNibble c2
    if high < 0 ∨ low < 0 then none
    else (parseHexBytes rest maxLen).map
      (fun out => ((high.toNat <<< 4) ||| low.toNat) :: out)
  | _, _ => some []

/-- Is `c` one of the characters `isspace` accepts (the whitespace `strtoul`
skips)? -/
def isStrtoulSpace (c : Char) : Bool :=
  c = ' ' ∨ c.toNat = 9 ∨ c.toNat = 10 ∨ c.toNat = 11 ∨ c.toNat = 12 ∨ c.toNat = 13

/-- Is `c` a hexadecimal digit? -/
def isHexDigitChar (c : Char) : Bool := decide (0 ≤ hexCharToNibble c)

/-- Value of a hex digit string. -/
def hexDigitsValue (ds : List Char) : Nat :=
  ds.foldl (fun acc c => acc * 16 + (hexCharToNibble c).toNat) 0

/-- Model of C `strtoul(s, &endPtr, 16)` on a 32-bit `unsigned long`:
skips leading whitespace, an optional sign, and an optional `0x` prefix
(consumed only when a hex digit follows; a bare `0x` converts just the `0`),
then the longest run of hex digits.  Returns the converted value and the
offset of `endPtr` from the start of the string; the offset is `0` exactly
when no conversion was performed.  Overflow saturates at `ULONG_MAX` and a
minus sign negates modulo `2^32`, as the C standard specifies. -/
def strtoul16 (s : List Char) : Nat × Nat :=
  let wsLen := (s.takeWhile (fun c => isStrtoulSpace c)).length
  let r1 := s.drop wsLen
  let signLen := match r1 with
    | '-' :: _ => 1
    | '+' :: _ => 1
    | _ => 0
  let neg : Bool := match r1 with
    | '-' :: _ => true
    | _ => false
  let r2 := r1.drop signLen
  let hasPrefix : Bool := match r2 with
    | '0' :: x :: y :: _ => (x = 'x' ∨ x = 'X') ∧ isHexDigitChar y
    | _ => false
  let barePrefix : Bool := match r2 with
    | '0' :: x :: y :: _ => (x = 'x' ∨ x = 'X') ∧ ¬ isHexDigitChar y
    | ['0', x] => x = 'x' ∨ x = 'X'
    | _ => false
  if barePrefix then (0, wsLen + signLen + 1)
  else
    let r3 := if hasPrefix then r2.drop 2 else r2
    let digits := r3.takeWhile (fun c => isHexDigitChar c)
    if digits.length = 0 then (0, 0)
    else
      let v := hexDigitsValue digits
      let v := if v > 4294967295 then 4294967295 else v
      let v := if neg then (4294967296 - v) % 4294967296 else v
      (v, wsLen + signLen + (if hasPrefix then 2 else 0) + digits.length)

/-- The frame produced by the serial bridge parser: identifier, standard/RTR
flags, data length code, and the data bytes the parser wrote (parsed bytes,
zero-filled up to the declared length when fewer were supplied). -/
structure ParsedFrame where
  identifier : Nat
  extd : Nat
  rtr : Nat
  data_length_code : Nat
  dataBytes : List Nat
deriving DecidableEq, Repr

/-- Embedding of `parseSerialCanFrame`.  Format
`CAN:XXX:D:HH...` with `XXX` a hex identifier, `D` a single digit `0`-`8`,
and `HH...` hex data bytes; returns `none` exactly when the source returns
`false` (in which case the caller discards the output frame, so a rejected
line has no effect). -/
def parseSerialCanFrame (line : List Char) : Option ParsedFrame :=
  if line.take 4 ≠ ['C', 'A', 'N', ':'] then none
  else
    let rest := line.drop 4
    let idOut := strtoul16 rest
    if idOut.2 = 0 then none
    else
      match rest.drop idOut.2 with
      | ':' :: rest2 =>
        match rest2 with
        | d :: rest3 =>
          if d < '0' ∨ d > '8' then none
          else
            match rest3 with
            | ':' :: rest4 =>
              let dlc := d.toNat - '0'.toNat
              match parseHexBytes rest4 8 with
              | none => none
              | some bytes =>
                some { identifier := idOut.1 % 4294967296, extd := 0, rtr := 0,
                       data_length_code := dlc,
                       dataBytes := bytes ++ List.replicate (dlc - bytes.length) 0 }
            | _ => none
        | _ => none
      | _ => none

-- ========== Legacy monolithic firmware (src/main.cpp) ==========

/-- `CanStatus` as defined by the legacy `src/main.cpp`. -/
inductive LegacyCanStatus where
  | NOT_INITIALIZED
  | INITIALIZING
  | RUNNING
  | FAILED_DRIVER_INSTALL
  | FAILED_START
  | BUS_OFF
  | ERROR_PASSIVE
deriving DecidableEq, Repr

/-- The health-monitor globals of the legacy `src/main.cpp`. -/
structure LegacyMonitorState where
  canBusStatus : LegacyCanStatus
  canErrorMessage : String
deriving DecidableEq, Repr

/-- Embedding of the legacy `monitorCanHealth` from `src/main.cpp`: no
polling interval and no recovery cooldown; a bus-off observation triggers a
recovery request immediately; error counters at or above 128 set
`ERROR_PASSIVE`; the `ERROR_PASSIVE → RUNNING` branch exists in the source
but sits behind the early return taken whenever the status is not `RUNNING`.
The returned `Bool` records whether `twai_initiate_recovery` was called. -/
def legacyMonitorCanHealth (s : LegacyMonitorState) (info : Option TwaiStatusInfo)
    (recoveryOk : Bool) : LegacyMonitorState × Bool :=
  if s.canBusStatus ≠ LegacyCanStatus.RUNNING then (s, false)
  else
    match info with
    | none => (s, false)
    | some st =>
      if st.state = TwaiState.TWAI_STATE_BUS_OFF then
        ({ s with canBusStatus := LegacyCanStatus.BUS_OFF,
                  canErrorMessage :=
                    if recoveryOk then "CAN bus in BUS-OFF. Recovery in progress..."
                    else "CAN bus BUS-OFF. Recovery failed. Check wiring and restart device." },
         true)
      else if 128 ≤ st.rx_error_counter ∨ 128 ≤ st.tx_error_counter then
        ({ s with canBusStatus := LegacyCanStatus.ERROR_PASSIVE,
                  canErrorMessage := "CAN bus in ERROR-PASSIVE. RX errors: " ++
                    toString st.rx_error_counter ++ ", TX errors: " ++
                    toString st.tx_error_counter }, false)
      else if s.canBusStatus = LegacyCanStatus.ERROR_PASSIVE then
        ({ s with canBusStatus := LegacyCanStatus.RUNNING, canErrorMessage := "" }, false)
      else (s, false)

-- Legacy custom-protocol identifiers and validation limits (src/main.cpp).

def LEGACY_ID_THROTTLE : Nat := 0x100
def LEGACY_ID_PEDALS : Nat := 0x101
def LEGACY_ID_RPM : Nat := 0x102
def LEGACY_ID_COOLANT : Nat := 0x103
def LEGACY_ID_REV_LIM : Nat := 0x104
def LEGACY_ID_ALS : Nat := 0x105
def LEGACY_ID_OIL_PRES : Nat := 0x106
def LEGACY_ID_IGNITION : Nat := 0x107

def MAX_REASONABLE_RPM : Nat := 12000
def MAX_REASONABLE_COOLANT : Nat := 1500
def MAX_REASONABLE_OIL_PRESSURE : Nat := 1000

/-- `VehicleState` as defined by the legacy `src/main.cpp`. -/
structure LegacyVehicleState where
  throttlePercent : Nat := 0
  brakePercent : Nat := 0
  handBrakePercent : Nat := 0
  clutchPercent : Nat := 0
  rpm : Nat := 0
  rpmRedline : Nat := 6500
  coolant10x : Nat := 900
  revLimiter : Bool := false
  alsActive : Bool := false
  oilPressure10kPa : Nat := 0
  ignitionOn : Bool := false
deriving DecidableEq, Repr

/-- The `validationStats` counters of the legacy `src/main.cpp`. -/
structure ValidationStats where
  totalMessagesProcessed : Nat := 0
  invalidRpmCount : Nat := 0
  invalidCoolantCount : Nat := 0
  invalidOilPressureCount : Nat := 0
deriving DecidableEq, Repr

/-- The `dataAge` timestamps of the legacy `src/main.cpp`. -/
structure DataAge where
  lastThrottleUpdate : Nat := 0
  lastRpmUpdate : Nat := 0
  lastCoolantUpdate : Nat := 0
  lastOilPressureUpdate : Nat := 0
deriving DecidableEq, Repr

/-- Embedding of the legacy `processFrame` from `src/main.cpp`: the custom
protocol with range validation on rpm, coolant and oil pressure — a value
above the fixed maximum is counted as invalid and the state field keeps its
prior value. -/
def legacyProcessFrame (now : Nat) (msg : Frame)
    (s : LegacyVehicleState) (v : ValidationStats) (d : DataAge) :
    LegacyVehicleState × ValidationStats × DataAge :=
  let v := { v with totalMessagesProcessed := v.totalMessagesProcessed + 1 }
  if msg.identifier = LEGACY_ID_THROTTLE then
    if 1 ≤ msg.data_length_code then
      ({ s with throttlePercent := constrain (msg.byte 0) 0 100 }, v,
       { d with lastThrottleUpdate := now })
    else (s, v, d)
  else if msg.identifier = LEGACY_ID_PEDALS then
    let s := if 1 ≤ msg.data_length_code then
      { s with brakePercent := constrain (msg.byte 0) 0 100 } else s
    let s := if 2 ≤ msg.data_length_code then
      { s with handBrakePercent := constrain (msg.byte 1) 0 100 } else s
    let s := if 3 ≤ msg.data_length_code then
      { s with clutchPercent := constrain (msg.byte 2) 0 100 } else s
    (s, v, d)
  else if msg.identifier = LEGACY_ID_RPM then
    if 2 ≤ msg.data_length_code then
      let rpm := (msg.byte 0 ||| (msg.byte 1 <<< 8)) % 65536
      if rpm ≤ MAX_REASONABLE_RPM then
        ({ s with rpm := rpm }, v, { d with lastRpmUpdate := now })
      else (s, { v with invalidRpmCount := v.invalidRpmCount + 1 }, d)
    else (s, v, d)
  else if msg.identifier = LEGACY_ID_COOLANT then
    if 2 ≤ msg.data_length_code then
      let coolant := (msg.byte 0 ||| (msg.byte 1 <<< 8)) % 65536
      if coolant ≤ MAX_REASONABLE_COOLANT then
        ({ s with coolant10x := coolant }, v, { d with lastCoolantUpdate := now })
      else (s, { v with invalidCoolantCount := v.invalidCoolantCount + 1 }, d)
    else (s, v, d)
  else if msg.identifier = LEGACY_ID_REV_LIM then
    if 1 ≤ msg.data_length_code then
      ({ s with revLimiter := decide (msg.byte 0 ≠ 0) }, v, d)
    else (s, v, d)
  else if msg.identifier = LEGACY_ID_ALS then
    if 1 ≤ msg.data_length_code then
      ({ s with alsActive := decide (msg.byte 0 ≠ 0) }, v, d)
    else (s, v, d)
  else if msg.identifier = LEGACY_ID_OIL_PRES then
    if 2 ≤ msg.data_length_code then
      let oilPres := (msg.byte 0 ||| (msg.byte 1 <<< 8)) % 65536
      if oilPres ≤ MAX_REASONABLE_OIL_PRESSURE then
        ({ s with oilPressure10kPa := oilPres }, v, { d with lastOilPressureUpdate := now })
      else (s, { v with invalidOilPressureCount := v.invalidOilPressureCount + 1 }, d)
    else (s, v, d)
  else if msg.identifier = LEGACY_ID_IGNITION then
    if 1 ≤ msg.data_length_code then
      ({ s with ignitionOn := decide (msg.byte 0 ≠ 0) }, v, d)
    else (s, v, d)
  else (s, v, d)

-- ========== Claim C1 ==========

/-- Claim C1 counterexample: with the link status `RECOVERING`, a health poll
that observes a healthy transport status (state running, zero error counters)
leaves the status `RECOVERING`; it does not set it back to `RUNNING` as the
claim states. -/
theorem c1_recovering_poll_counterexample :
    (monitorCanHealth ⟨CanStatus.RECOVERING, "", 0, 0⟩ 20000
      (some ⟨TwaiState.TWAI_STATE_RUNNING, 0, 0, 0⟩) true).1.canBusStatus =
      CanStatus.RECOVERING ∧
    CanStatus.RECOVERING ≠ CanStatus.RUNNING := by
  exact ⟨by decide, by decide⟩

/-- Claim C1 amended: whenever the link status is `RECOVERING`,
`monitorCanHealth` is a no-op — it returns without examining the transport
status at all, so no health poll ever moves the status from `RECOVERING`
back to `RUNNING`. -/
theorem c1_recovering_poll_noop (s : MonitorState) (now : Nat)
    (info : Option TwaiStatusInfo) (recoveryOk : Bool)
    (h : s.canBusStatus = CanStatus.RECOVERING) :
    monitorCanHealth s now info recoveryOk = (s, false) := by
  simp [monitorCanHealth, h]

/-- Witness for `c1_recovering_poll_noop` at a concrete recovering state and a
concrete healthy poll. -/
theorem c1_recovering_poll_noop_witness :
    monitorCanHealth ⟨CanStatus.RECOVERING, "", 0, 0⟩ 20000
      (some ⟨TwaiState.TWAI_STATE_RUNNING, 0, 0, 0⟩) true =
      (⟨CanStatus.RECOVERING, "", 0, 0⟩, false) :=
  c1_recovering_poll_noop ⟨CanStatus.RECOVERING, "", 0, 0⟩ 20000
    (some ⟨TwaiState.TWAI_STATE_RUNNING, 0, 0, 0⟩) true rfl

-- ========== Claim C2 ==========

/-- Claim C2 counterexample: with the link status `RUNNING` and a poll
observing `rx_error_counter = 200` (no bus-off), the `can_handler.cpp`
monitor leaves the status `RUNNING` — no transition to an error-passive
state occurs (the `CanStatus` enum of `types.h` has no such member). -/
theorem c2_error_passive_counterexample :
    (monitorCanHealth ⟨CanStatus.RUNNING, "", 0, 0⟩ 5000
      (some ⟨TwaiState.TWAI_STATE_RUNNING, 200, 0, 0⟩) true).1.canBusStatus =
      CanStatus.RUNNING := by
  decide

/-- Claim C2 amended: the modular monitor (`can_handler.cpp`) ignores error
counters entirely — any poll that does not observe bus-off leaves the status
`RUNNING`.  The legacy monitor (`src/main.cpp`) does set `ERROR_PASSIVE` when
a counter reaches 128 while running, but the `ErrorPassive → Running` return
transition never fires: once the status is `ERROR_PASSIVE` the legacy
monitor returns immediately, leaving the status unchanged. -/
theorem c2_error_passive_behaviour :
    (∀ (s : MonitorState) (now : Nat) (st : TwaiStatusInfo) (r : Bool),
      s.canBusStatus = CanStatus.RUNNING →
      st.state ≠ TwaiState.TWAI_STATE_BUS_OFF →
      (monitorCanHealth s now (some st) r).1.canBusStatus = CanStatus.RUNNING) ∧
    (∀ (s : LegacyMonitorState) (st : TwaiStatusInfo) (r : Bool),
      s.canBusStatus = LegacyCanStatus.RUNNING →
      st.state ≠ TwaiState.TWAI_STATE_BUS_OFF →
      (128 ≤ st.rx_error_counter ∨ 128 ≤ st.tx_error_counter) →
      (legacyMonitorCanHealth s (some st) r).1.canBusStatus =
        LegacyCanStatus.ERROR_PASSIVE) ∧
    (∀ (s : LegacyMonitorState) (info : Option TwaiStatusInfo) (r : Bool),
      s.canBusStatus = LegacyCanStatus.ERROR_PASSIVE →
      legacyMonitorCanHealth s info r = (s, false)) := by
  refine ⟨?_, ?_, ?_⟩
  · intro s now st r hrun hst
    simp only [monitorCanHealth, hrun]
    split
    · simp at *
    · split
      · exact hrun
      · simp [hst]
  · intro s st r hrun hst herr
    simp [legacyMonitorCanHealth, hrun, hst, herr]
  · intro s info r hep
    have : s.canBusStatus ≠ LegacyCanStatus.RUNNING := by rw [hep]; decide
    simp [legacyMonitorCanHealth, this]

/-- Witness for `c2_error_passive_behaviour`: the legacy monitor takes
`RUNNING` to `ERROR_PASSIVE` on a poll with `rx_error_counter = 200`. -/
theorem c2_error_passive_behaviour_witness :
    (legacyMonitorCanHealth ⟨LegacyCanStatus.RUNNING, ""⟩
      (some ⟨TwaiState.TWAI_STATE_RUNNING, 200, 0, 0⟩) true).1.canBusStatus =
      LegacyCanStatus.ERROR_PASSIVE :=
  c2_error_passive_behaviour.2.1 ⟨LegacyCanStatus.RUNNING, ""⟩
    ⟨TwaiState.TWAI_STATE_RUNNING, 200, 0, 0⟩ true rfl (by decide) (by decide)

-- ========== Claim C3 ==========

/-- Claim C3 counterexample: a bus-off observed by the first health poll
after boot (`now = 5000`, `canRestartAttemptTime` still at its initial 0)
sets the status to `BUS_OFF` but issues zero recovery calls — the
cooldown test `now - canRestartAttemptTime < 10000` already fails the very
first attempt, so no `Running → BusOff → Recovering` transition with exactly
one recovery call takes place. -/
theorem c3_boot_cooldown_counterexample :
    (monitorCanHealth ⟨CanStatus.RUNNING, "", 0, 0⟩ 5000
      (some ⟨TwaiState.TWAI_STATE_BUS_OFF, 0, 0, 0⟩) true).2 = false ∧
    (monitorCanHealth ⟨CanStatus.RUNNING, "", 0, 0⟩ 5000
      (some ⟨TwaiState.TWAI_STATE_BUS_OFF, 0, 0, 0⟩) true).1.canBusStatus =
      CanStatus.BUS_OFF := by
  exact ⟨by decide, by decide⟩

/-- Claim C3 amended: when a health poll (due by the 5000 ms interval)
observes bus-off while the status is `RUNNING`, and at least the 10000 ms
cooldown has passed since `canRestartAttemptTime` (which starts at 0 at
boot, so the window also covers the first 10 s of uptime), and the driver
accepts the recovery request, then exactly one recovery call is issued and
the status moves `Running → BusOff → Recovering`; any further recovery
attempt within the 10000 ms cooldown of this attempt is silently skipped —
zero additional recovery calls and no state change. -/
theorem c3_busoff_single_recovery (s : MonitorState) (now : Nat) (st : TwaiStatusInfo)
    (hrun : s.canBusStatus = CanStatus.RUNNING)
    (hdue : ¬ usub32 now s.lastCanHealthCheck < CAN_HEALTH_CHECK_INTERVAL)
    (hcool : ¬ usub32 now s.canRestartAttemptTime < CAN_RESTART_COOLDOWN)
    (hbo : st.state = TwaiState.TWAI_STATE_BUS_OFF) :
    (monitorCanHealth s now (some st) true).2 = true ∧
    (monitorCanHealth s now (some st) true).1.canBusStatus = CanStatus.RECOVERING ∧
    (monitorCanHealth s now (some st) true).1.canRestartAttemptTime = now ∧
    (∀ (now2 : Nat) (r : Bool), usub32 now2 now < CAN_RESTART_COOLDOWN →
      attemptCanRecovery (monitorCanHealth s now (some st) true).1 now2 r =
        ((monitorCanHealth s now (some st) true).1, false)) := by
  simp only [monitorCanHealth, hrun, hdue, attemptCanRecovery, hbo]
  simp only [if_neg hcool]
  refine ⟨by simp, by simp, by simp, ?_⟩
  intro now2 r h2
  simp_all [attemptCanRecovery]

/-- Witness for `c3_busoff_single_recovery` at a concrete state 15 s after
boot with the last attempt recorded at 2 s. -/
theorem c3_busoff_single_recovery_witness :
    (monitorCanHealth ⟨CanStatus.RUNNING, "", 10000, 2000⟩ 15000
      (some ⟨TwaiState.TWAI_STATE_BUS_OFF, 0, 0, 0⟩) true).2 = true ∧
    (monitorCanHealth ⟨CanStatus.RUNNING, "", 10000, 2000⟩ 15000
      (some ⟨TwaiState.TWAI_STATE_BUS_OFF, 0, 0, 0⟩) true).1.canBusStatus =
      CanStatus.RECOVERING :=
  ⟨(c3_busoff_single_recovery ⟨CanStatus.RUNNING, "", 10000, 2000⟩ 15000
      ⟨TwaiState.TWAI_STATE_BUS_OFF, 0, 0, 0⟩ rfl (by decide) (by decide) rfl).1,
   (c3_busoff_single_recovery ⟨CanStatus.RUNNING, "", 10000, 2000⟩ 15000
      ⟨TwaiState.TWAI_STATE_BUS_OFF, 0, 0, 0⟩ rfl (by decide) (by decide) rfl).2.1⟩

-- ========== Claim C8 ==========

/-- Claim C8: the serial bridge parser accepts `CAN:102:2:E803` as identifier
`0x102`, length 2, data `E8 03`; rejects `CAN:102:9:AA` (length digit outside
0-8); zero-fills the short line `CAN:102:2:E8` to data `E8 00`; and rejects
lines whose prefix, identifier, or length field is malformed (whole-line
rejection, so the caller applies no effect). -/
theorem c8_serial_bridge_parse :
    parseSerialCanFrame ("CAN:102:2:E803".toList) =
      some ⟨0x102, 0, 0, 2, [0xE8, 0x03]⟩ ∧
    parseSerialCanFrame ("CAN:102:9:AA".toList) = none ∧
    parseSerialCanFrame ("CAN:102:2:E8".toList) =
      some ⟨0x102, 0, 0, 2, [0xE8, 0x00]⟩ ∧
    (∀ line : List Char, line.take 4 ≠ ['C', 'A', 'N', ':'] →
      parseSerialCanFrame line = none) ∧
    parseSerialCanFrame ("CAN::2:E8".toList) = none ∧
    parseSerialCanFrame ("CAN:102:x:AA".toList) = none ∧
    parseSerialCanFrame ("CAN:102:2:EZ".toList) = none := by
  refine ⟨by decide, by decide, by decide, ?_, by decide, by decide, by decide⟩
  intro line h
  simp [parseSerialCanFrame, h]

/-- Witness for `c8_serial_bridge_parse`: a line with a wrong prefix is
rejected. -/
theorem c8_serial_bridge_parse_witness :
    parseSerialCanFrame ("XAN:102:2:E8".toList) = none :=
  c8_serial_bridge_parse.2.2.2.1 ("XAN:102:2:E8".toList) (by decide)

-- ========== Claim C5 ==========

/-- The ring content has as many slots as the backing array. -/
theorem contents_length (ls : FrameLogState) : ls.contents.length = ls.entries.length := by
  simp [FrameLogState.contents]; omega

/-- Dropping `n + 1` elements of an append equals first dropping the head of
the (nonempty) left part. -/
theorem drop_one_append {α : Type} (c l : List α) (hc : c ≠ []) (n : Nat) :
    (c ++ l).drop (n + 1) = (c.drop 1 ++ l).drop n := by
  cases c with
  | nil => exact absurd rfl hc
  | cons a c => simp

/-- One ring-buffer insertion drops the oldest slot of the logical content
and appends the new entry at the newest end. -/
theorem frameLog_contents_insert (l : List FrameLogEntry) (i : Nat) (e : FrameLogEntry)
    (hlen : l.length = FRAME_LOG_SIZE) (hidx : i < FRAME_LOG_SIZE) :
    (frameLogInsert ⟨l, i⟩ e).contents = (FrameLogState.contents ⟨l, i⟩).drop 1 ++ [e] := by
  have hi : i < l.length := by omega
  have hset : l.set i e = l.take i ++ e :: l.drop (i + 1) := List.set_eq_take_cons_drop e hi
  have hdropi : l.drop i = l[i] :: l.drop (i + 1) := (List.getElem_cons_drop l i hi).symm
  have htklen : (l.take i).length = i := by simp [List.length_take]; omega
  have hrhs : List.drop 1 (List.drop i l ++ List.take i l) ++ [e] =
      List.drop (i + 1) l ++ (List.take i l ++ [e]) := by
    rw [hdropi, List.cons_append]
    simp
  simp only [frameLogInsert, FrameLogState.contents]
  by_cases hcase : i + 1 < FRAME_LOG_SIZE
  · rw [Nat.mod_eq_of_lt hcase, hrhs, hset]
    have h1 : (l.take i ++ e :: l.drop (i + 1)).drop (i + 1) = l.drop (i + 1) := by
      rw [show i + 1 = (l.take i).length + 1 from by rw [htklen], List.drop_append]
      simp
    have h2 : (l.take i ++ e :: l.drop (i + 1)).take (i + 1) = l.take i ++ [e] := by
      rw [show i + 1 = (l.take i).length + 1 from by rw [htklen], List.take_append]
      simp
    rw [h1, h2]
  · have hieq : i + 1 = FRAME_LOG_SIZE := by omega
    rw [hieq, Nat.mod_self, hrhs, hset]
    have hdropall : l.drop (i + 1) = [] := List.drop_eq_nil_of_le (by omega)
    simp [hdropall]

/-- Inserting a list of entries keeps exactly the most recent
`FRAME_LOG_SIZE` slots of "previous content, then the new entries in
order". -/
theorem frameLog_contents_foldl (es : List FrameLogEntry) (ls : FrameLogState)
    (hlen : ls.entries.length = FRAME_LOG_SIZE) (hidx : ls.frameLogIndex < FRAME_LOG_SIZE) :
    (es.foldl frameLogInsert ls).contents = (ls.contents ++ es).drop es.length := by
  induction es generalizing ls with
  | nil => simp
  | cons e es ih =>
    have hlen2 : (frameLogInsert ls e).entries.length = FRAME_LOG_SIZE := by
      simp [frameLogInsert, hlen]
    have hidx2 : (frameLogInsert ls e).frameLogIndex < FRAME_LOG_SIZE := by
      exact Nat.mod_lt _ (by decide)
    rw [List.foldl_cons, ih _ hlen2 hidx2]
    obtain ⟨l, i⟩ := ls
    rw [frameLog_contents_insert l i e hlen hidx]
    have hne : FrameLogState.contents ⟨l, i⟩ ≠ [] := by
      intro hcon
      have hl := contents_length ⟨l, i⟩
      rw [hcon] at hl
      simp at hl
      rw [hlen] at hl
      exact absurd hl.symm (by decide)
    rw [List.length_cons, drop_one_append _ _ hne]
    simp

/-- The write index after a sequence of insertions. -/
theorem frameLog_index_foldl (es : List FrameLogEntry) (ls : FrameLogState)
    (hidx : ls.frameLogIndex < FRAME_LOG_SIZE) :
    (es.foldl frameLogInsert ls).frameLogIndex =
      (ls.frameLogIndex + es.length) % FRAME_LOG_SIZE := by
  induction es generalizing ls with
  | nil => simp [Nat.mod_eq_of_lt hidx]
  | cons e es ih =>
    rw [List.foldl_cons, ih _ (Nat.mod_lt _ (by decide))]
    simp only [frameLogInsert, List.length_cons, FRAME_LOG_SIZE]
    omega

/-- Claim C5: after inserting `FRAME_LOG_SIZE + 1` entries into the initially
empty log, exactly the most recent `FRAME_LOG_SIZE` entries remain in
insertion order and the oldest has been overwritten (the content is the
input sequence minus its first element); each single insertion overwrites
the oldest slot; and the write index always stays within
`[0, FRAME_LOG_SIZE)`. -/
theorem c5_frame_log_ring (es : List FrameLogEntry) (h : es.length = FRAME_LOG_SIZE + 1) :
    ((es.foldl frameLogInsert initialFrameLog).contents = es.drop 1) ∧
    ((es.foldl frameLogInsert initialFrameLog).frameLogIndex = 1) ∧
    (∀ (ls : FrameLogState) (e : FrameLogEntry),
      ls.entries.length = FRAME_LOG_SIZE → ls.frameLogIndex < FRAME_LOG_SIZE →
      (frameLogInsert ls e).contents = ls.contents.drop 1 ++ [e]) ∧
    (∀ es2 : List FrameLogEntry,
      (es2.foldl frameLogInsert initialFrameLog).frameLogIndex < FRAME_LOG_SIZE) := by
  have hlen : initialFrameLog.entries.length = FRAME_LOG_SIZE := by
    simp [initialFrameLog]
  have hidx : initialFrameLog.frameLogIndex < FRAME_LOG_SIZE := by decide
  refine ⟨?_, ?_, ?_, ?_⟩
  · rw [frameLog_contents_foldl es _ hlen hidx, h]
    have hcont : initialFrameLog.contents = List.replicate FRAME_LOG_SIZE default := by
      simp [initialFrameLog, FrameLogState.contents]
    rw [hcont,
      show FRAME_LOG_SIZE + 1 =
        (List.replicate FRAME_LOG_SIZE (default : FrameLogEntry)).length + 1 from by simp,
      List.drop_append]
  · rw [frameLog_index_foldl es _ hidx, h]
    decide
  · intro ls e hl hi
    obtain ⟨l, i⟩ := ls
    exact frameLog_contents_insert l i e hl hi
  · intro es2
    rw [frameLog_index_foldl es2 _ hidx]
    exact Nat.mod_lt _ (by decide)

/-- Witness for `c5_frame_log_ring` at a concrete sequence of
`FRAME_LOG_SIZE + 1` timestamped entries. -/
theorem c5_frame_log_ring_witness :
    (((List.range (FRAME_LOG_SIZE + 1)).map
        (fun k => FrameLogEntry.mk k default)).foldl frameLogInsert
        initialFrameLog).frameLogIndex = 1 :=
  (c5_frame_log_ring ((List.range (FRAME_LOG_SIZE + 1)).map
    (fun k => FrameLogEntry.mk k default)) (by simp)).2.1

-- ========== Claim C7 ==========

/-- `constrain` with bounds `0` and `100` on an unsigned value is `min`. -/
theorem constrain_eq_min (v : Nat) : constrain v 0 100 = min v 100 := by
  unfold constrain
  split_ifs <;> omega

/-- The clamped value never exceeds 100. -/
theorem constrain_le_100 (v : Nat) : constrain v 0 100 ≤ 100 := by
  unfold constrain
  split_ifs <;> omega

/-- All four percentage fields of the state are within `[0, 100]`. -/
def percentInv (s : VehicleState) : Prop :=
  s.throttlePercent ≤ 100 ∧ s.brakePercent ≤ 100 ∧
  s.handbrakePulled ≤ 100 ∧ s.clutchPercent ≤ 100

/-- The custom decoder preserves the percentage bounds. -/
theorem percentInv_custom (msg : Frame) (s : VehicleState) (h : percentInv s) :
    percentInv (processFrameCustom msg s) := by
  obtain ⟨h1, h2, h3, h4⟩ := h
  unfold processFrameCustom
  split_ifs <;> exact ⟨by simp [constrain_le_100, h1], by simp [constrain_le_100, h2],
    by simp [constrain_le_100, h3], by simp [constrain_le_100, h4]⟩

set_option maxHeartbeats 2000000 in
/-- The Link Generic Dashboard decoder preserves the percentage bounds. -/
theorem percentInv_link (msg : Frame) (s : VehicleState) (h : percentInv s) :
    percentInv (processFrameLinkGeneric msg s) := by
  obtain ⟨h1, h2, h3, h4⟩ := h
  unfold processFrameLinkGeneric
  dsimp only
  split_ifs <;> exact ⟨by simp [constrain_le_100, h1], by simp [constrain_le_100, h2],
    by simp [constrain_le_100, h3], by simp [constrain_le_100, h4]⟩

set_option maxHeartbeats 2000000 in
/-- The Link Generic Dashboard 2 decoder preserves the percentage bounds. -/
theorem percentInv_link2 (msg : Frame) (s : VehicleState) (h : percentInv s) :
    percentInv (processFrameLinkGeneric2 msg s) := by
  obtain ⟨h1, h2, h3, h4⟩ := h
  unfold processFrameLinkGeneric2
  dsimp only
  split_ifs <;> exact ⟨by simp [constrain_le_100, h1], by simp [constrain_le_100, h2],
    by simp [constrain_le_100, h3], by simp [constrain_le_100, h4]⟩

/-- The custom decoder stores `min(v, 100)` for the throttle byte. -/
theorem custom_throttle_min (msg : Frame) (s : VehicleState)
    (hid : msg.identifier = ID_THROTTLE) (h1 : 1 ≤ msg.data_length_code) :
    (processFrameCustom msg s).throttlePercent = min (msg.byte 0) 100 := by
  simp [processFrameCustom, hid, h1, constrain_eq_min]

/-- The custom decoder stores `min(v, 100)` for the brake byte. -/
theorem custom_brake_min (msg : Frame) (s : VehicleState)
    (hid : msg.identifier = ID_PEDALS) (h1 : 1 ≤ msg.data_length_code) :
    (processFrameCustom msg s).brakePercent = min (msg.byte 0) 100 := by
  simp only [processFrameCustom, hid, ID_PEDALS, ID_THROTTLE]
  norm_num
  split_ifs <;> simp [constrain_eq_min, h1]

/-- The custom decoder stores `min(v, 100)` for the handbrake byte. -/
theorem custom_handbrake_min (msg : Frame) (s : VehicleState)
    (hid : msg.identifier = ID_PEDALS) (h2 : 2 ≤ msg.data_length_code) :
    (processFrameCustom msg s).handbrakePulled = min (msg.byte 1) 100 := by
  simp only [processFrameCustom, hid, ID_PEDALS, ID_THROTTLE]
  norm_num
  split_ifs <;> simp [constrain_eq_min, h2]

/-- The custom decoder stores `min(v, 100)` for the clutch byte. -/
theorem custom_clutch_min (msg : Frame) (s : VehicleState)
    (hid : msg.identifier = ID_PEDALS) (h3 : 3 ≤ msg.data_length_code) :
    (processFrameCustom msg s).clutchPercent = min (msg.byte 2) 100 := by
  simp only [processFrameCustom, hid, ID_PEDALS, ID_THROTTLE]
  norm_num
  split_ifs <;> simp [constrain_eq_min, h3]

/-- The Link decoder divides the tenths-of-percent TPS by 10, then clamps. -/
theorem link_throttle_min (msg : Frame) (s : VehicleState)
    (hid : msg.identifier = ID_RPM_TPS) (h6 : 6 ≤ msg.data_length_code) :
    (processFrameLinkGeneric msg s).throttlePercent =
      min (((msg.byte 4 ||| msg.byte 5 <<< 8) % 65536) / 10) 100 := by
  simp [processFrameLinkGeneric, hid, h6, constrain_eq_min,
    show 4 ≤ msg.data_length_code by omega]

/-- The Link 2 decoder divides the tenths-of-percent TPS by 10, then clamps. -/
theorem link2_throttle_min (msg : Frame) (s : VehicleState)
    (hid : msg.identifier = ID_ENGINE_DATA_1) (h4 : 4 ≤ msg.data_length_code) :
    (processFrameLinkGeneric2 msg s).throttlePercent =
      min (((msg.byte 2 ||| msg.byte 3 <<< 8) % 65536) / 10) 100 := by
  simp only [processFrameLinkGeneric2, hid, ID_ENGINE_DATA_1]
  norm_num
  split_ifs <;> simp_all [constrain_eq_min]

/-- Claim C7: every percentage-producing field stores `min(v, 100)` of its
raw byte in the custom protocol; in the two Link protocols the throttle is
the tenths-of-percent value divided by 10 and then clamped; and under every
protocol every percentage written to the state lies in `[0, 100]` (decoding
preserves the percentage bounds). -/
theorem c7_percent_clamping :
    (∀ (msg : Frame) (s : VehicleState), msg.identifier = ID_THROTTLE →
      1 ≤ msg.data_length_code →
      (processFrameCustom msg s).throttlePercent = min (msg.byte 0) 100) ∧
    (∀ (msg : Frame) (s : VehicleState), msg.identifier = ID_PEDALS →
      1 ≤ msg.data_length_code →
      (processFrameCustom msg s).brakePercent = min (msg.byte 0) 100) ∧
    (∀ (msg : Frame) (s : VehicleState), msg.identifier = ID_PEDALS →
      2 ≤ msg.data_length_code →
      (processFrameCustom msg s).handbrakePulled = min (msg.byte 1) 100) ∧
    (∀ (msg : Frame) (s : VehicleState), msg.identifier = ID_PEDALS →
      3 ≤ msg.data_length_code →
      (processFrameCustom msg s).clutchPercent = min (msg.byte 2) 100) ∧
    (∀ (msg : Frame) (s : VehicleState), msg.identifier = ID_RPM_TPS →
      6 ≤ msg.data_length_code →
      (processFrameLinkGeneric msg s).throttlePercent =
        min (((msg.byte 4 ||| msg.byte 5 <<< 8) % 65536) / 10) 100) ∧
    (∀ (msg : Frame) (s : VehicleState), msg.identifier = ID_ENGINE_DATA_1 →
      4 ≤ msg.data_length_code →
      (processFrameLinkGeneric2 msg s).throttlePercent =
        min (((msg.byte 2 ||| msg.byte 3 <<< 8) % 65536) / 10) 100) ∧
    (∀ (p : ProtoChoice) (msg : Frame) (s : VehicleState),
      percentInv s → percentInv (decodeBy p msg s)) := by
  refine ⟨custom_throttle_min, custom_brake_min, custom_handbrake_min,
    custom_clutch_min, link_throttle_min, link2_throttle_min, ?_⟩
  intro p msg s h
  cases p with
  | custom => exact percentInv_custom msg s h
  | linkGeneric => exact percentInv_link msg s h
  | linkGeneric2 => exact percentInv_link2 msg s h

/-- Witness for `c7_percent_clamping`: a throttle frame carrying the raw
byte 250 stores the clamped value. -/
theorem c7_percent_clamping_witness :
    (processFrameCustom ⟨ID_THROTTLE, 1, fun _ => 250⟩
      initialVehicleState).throttlePercent =
      min (Frame.byte ⟨ID_THROTTLE, 1, fun _ => 250⟩ 0) 100 :=
  c7_percent_clamping.1 ⟨ID_THROTTLE, 1, fun _ => 250⟩ initialVehicleState rfl
    (by decide)

-- ========== Claim C10 ==========

/-- The undocumented invariant: the engine-running flag always equals
`rpm > 300` for the stored rpm. -/
def engineRunningInv (s : VehicleState) : Prop :=
  s.engineRunning = decide (300 < s.rpm)

/-- The custom decoder preserves `engineRunningInv`. -/
theorem engInv_custom (msg : Frame) (s : VehicleState) (h : engineRunningInv s) :
    engineRunningInv (processFrameCustom msg s) := by
  unfold processFrameCustom
  split_ifs <;> simp_all [engineRunningInv]

set_option maxHeartbeats 2000000 in
/-- The Link Generic Dashboard decoder preserves `engineRunningInv`. -/
theorem engInv_link (msg : Frame) (s : VehicleState) (h : engineRunningInv s) :
    engineRunningInv (processFrameLinkGeneric msg s) := by
  unfold processFrameLinkGeneric
  dsimp only
  split_ifs <;> simp_all [engineRunningInv]

set_option maxHeartbeats 2000000 in
/-- The Link Generic Dashboard 2 decoder preserves `engineRunningInv`. -/
theorem engInv_link2 (msg : Frame) (s : VehicleState) (h : engineRunningInv s) :
    engineRunningInv (processFrameLinkGeneric2 msg s) := by
  unfold processFrameLinkGeneric2
  dsimp only
  split_ifs <;> simp_all [engineRunningInv]

/-- Claim C10: `engineRunning == (rpm > 300)` holds in the initial state, is
preserved by decoding any frame under any of the three protocols, and
therefore holds after decoding any sequence of frames starting from the
initial state. -/
theorem c10_engine_running_invariant :
    engineRunningInv initialVehicleState ∧
    (∀ (p : ProtoChoice) (msg : Frame) (s : VehicleState),
      engineRunningInv s → engineRunningInv (decodeBy p msg s)) ∧
    (∀ seq : List (ProtoChoice × Frame),
      engineRunningInv
        (seq.foldl (fun s pf => decodeBy pf.1 pf.2 s) initialVehicleState)) := by
  have hinit : engineRunningInv initialVehicleState := by
    unfold engineRunningInv
    decide
  have hpres : ∀ (p : ProtoChoice) (msg : Frame) (s : VehicleState),
      engineRunningInv s → engineRunningInv (decodeBy p msg s) := by
    intro p msg s h
    cases p with
    | custom => exact engInv_custom msg s h
    | linkGeneric => exact engInv_link msg s h
    | linkGeneric2 => exact engInv_link2 msg s h
  refine ⟨hinit, hpres, ?_⟩
  intro seq
  have aux : ∀ (l : List (ProtoChoice × Frame)) (s : VehicleState), engineRunningInv s →
      engineRunningInv (l.foldl (fun s pf => decodeBy pf.1 pf.2 s) s) := by
    intro l
    induction l with
    | nil => exact fun s h => h
    | cons a l ih => exact fun s h => ih _ (hpres a.1 a.2 s h)
  exact aux seq _ hinit

/-- Witness for `c10_engine_running_invariant`: decoding a concrete rpm frame
(1000 rpm) from the initial state keeps the invariant. -/
theorem c10_engine_running_invariant_witness :
    engineRunningInv (decodeBy ProtoChoice.custom
      ⟨ID_RPM, 2, fun i => if i = 0 then 0xE8 else 0x03⟩ initialVehicleState) :=
  c10_engine_running_invariant.2.1 ProtoChoice.custom
    ⟨ID_RPM, 2, fun i => if i = 0 then 0xE8 else 0x03⟩ initialVehicleState
    (by unfold engineRunningInv; decide)

-- ========== Claim C4 ==========

/-- The drain loop processes at most `fuel` frames. -/
theorem drainLoop_processed_le (p : ProtoChoice) (now : Nat) (rx : Nat → Option Frame) :
    ∀ (fuel k : Nat) (rs : RouterState), (drainLoop p now rx fuel k rs).2.1 ≤ fuel := by
  intro fuel
  induction fuel with
  | zero => intro k rs; simp [drainLoop]
  | succ n ih =>
    intro k rs
    rw [drainLoop]
    cases h : rx k with
    | some msg =>
      have := ih (k + 1) (processFrame p now msg rs)
      simp only []
      omega
    | none => simp

/-- With an inexhaustible source the drain loop spends all its fuel, one
receive call per processed frame. -/
theorem drainLoop_all_some (p : ProtoChoice) (now : Nat) (rx : Nat → Option Frame) :
    ∀ (fuel k : Nat) (rs : RouterState), (∀ i, (rx (k + i)).isSome) →
      (drainLoop p now rx fuel k rs).2.1 = fuel ∧
      (drainLoop p now rx fuel k rs).2.2 = fuel := by
  intro fuel
  induction fuel with
  | zero => intro k rs _; simp [drainLoop]
  | succ n ih =>
    intro k rs hsome
    rw [drainLoop]
    cases h : rx k with
    | some msg =>
      have hnext : ∀ i, (rx (k + 1 + i)).isSome := by
        intro i
        have := hsome (1 + i)
        rwa [show k + (1 + i) = k + 1 + i by omega] at this
      have := ih (k + 1) (processFrame p now msg rs) hnext
      simp only []
      omega
    | none =>
      have := hsome 0
      rw [Nat.add_zero, h] at this
      simp at this

/-- The drain loop stops at the first failed receive: with `j` frames
available and the `j`-th call empty (and enough fuel), it processes exactly
`j` frames using `j + 1` receive calls. -/
theorem drainLoop_stops (p : ProtoChoice) (now : Nat) (rx : Nat → Option Frame) :
    ∀ (j fuel k : Nat) (rs : RouterState), j + 1 ≤ fuel →
      (∀ i, i < j → (rx (k + i)).isSome) → rx (k + j) = none →
      (drainLoop p now rx fuel k rs).2.1 = j ∧
      (drainLoop p now rx fuel k rs).2.2 = j + 1 := by
  intro j
  induction j with
  | zero =>
    intro fuel k rs hf _ hnone
    rw [Nat.add_zero] at hnone
    obtain ⟨m, rfl⟩ : ∃ m, fuel = m + 1 := ⟨fuel - 1, by omega⟩
    rw [drainLoop, hnone]
    simp
  | succ j ih =>
    intro fuel k rs hf hsome hnone
    obtain ⟨m, rfl⟩ : ∃ m, fuel = m + 1 := ⟨fuel - 1, by omega⟩
    have h0 : (rx k).isSome := by
      have := hsome 0 (by omega)
      rwa [Nat.add_zero] at this
    obtain ⟨msg, hmsg⟩ := Option.isSome_iff_exists.mp h0
    rw [drainLoop, hmsg]
    have hnext : ∀ i, i < j → (rx (k + 1 + i)).isSome := by
      intro i hi
      have := hsome (1 + i) (by omega)
      rwa [show k + (1 + i) = k + 1 + i by omega] at this
    have hnone2 : rx (k + 1 + j) = none := by
      rwa [show k + 1 + j = k + (j + 1) by omega]
    have := ih m (k + 1) (processFrame p now msg rs) (by omega) hnext hnone2
    simp only []
    omega

/-- Claim C4 counterexample: with `max_frames = 0` and a frame available, the
router still decodes one frame (the blocking receive is attempted before the
bound is checked), exceeding the claimed bound of at most `m` decodes; and
when the blocking receive times out, up to `m` further non-blocking receives
occur — with `m = 5`, six receive calls in total, one more than the claimed
one-blocking-plus-at-most-`m - 1`. -/
theorem c4_router_counterexample :
    (receiveAndProcessCan ProtoChoice.custom CanStatus.RUNNING 100
      (fun _ => some ⟨0, 0, fun _ => 0⟩) 0
      ⟨initialVehicleState, initialFrameLog, 0⟩).framesProcessed = 1 ∧
    (receiveAndProcessCan ProtoChoice.custom CanStatus.RUNNING 100
      (fun k => if k = 0 then none else some ⟨0, 0, fun _ => 0⟩) 5
      ⟨initialVehicleState, initialFrameLog, 0⟩).receiveCalls = 6 := by
  refine ⟨by decide, by decide⟩

/-- Claim C4 amended: while the status is `Running` and `m ≥ 1`, the router
attempts one blocking-with-timeout receive first and decodes at most `m`
frames, exactly `m` (in exactly `m` receive calls) when the source always
has a frame; it stops the moment a non-blocking receive reports no data
(`j` frames then a failed call give exactly `j` decodes and `j + 1` receive
calls); it returns `true` iff at least one frame was processed; and when the
first (blocking) receive times out, up to `m` — not `m - 1` — additional
non-blocking receives follow. -/
theorem c4_router (p : ProtoChoice) (now : Nat) (rx : Nat → Option Frame) (m : Nat)
    (rs : RouterState) :
    (1 ≤ m →
      (receiveAndProcessCan p CanStatus.RUNNING now rx m rs).framesProcessed ≤ m) ∧
    ((∀ k, (rx k).isSome) → 1 ≤ m →
      (receiveAndProcessCan p CanStatus.RUNNING now rx m rs).framesProcessed = m ∧
      (receiveAndProcessCan p CanStatus.RUNNING now rx m rs).receiveCalls = m) ∧
    ((receiveAndProcessCan p CanStatus.RUNNING now rx m rs).retval = true ↔
      1 ≤ (receiveAndProcessCan p CanStatus.RUNNING now rx m rs).framesProcessed) ∧
    (∀ j, 1 ≤ j → j + 1 ≤ m → (∀ i, i < j → (rx i).isSome) → rx j = none →
      (receiveAndProcessCan p CanStatus.RUNNING now rx m rs).framesProcessed = j ∧
      (receiveAndProcessCan p CanStatus.RUNNING now rx m rs).receiveCalls = j + 1) ∧
    (rx 0 = none → (∀ j, 1 ≤ j → (rx j).isSome) →
      (receiveAndProcessCan p CanStatus.RUNNING now rx m rs).framesProcessed = m ∧
      (receiveAndProcessCan p CanStatus.RUNNING now rx m rs).receiveCalls = m + 1) := by
  have hne : ¬ (CanStatus.RUNNING ≠ CanStatus.RUNNING) := by simp
  refine ⟨?_, ?_, ?_, ?_, ?_⟩
  · intro hm
    rw [receiveAndProcessCan, if_neg hne]
    cases h0 : rx 0 with
    | some msg =>
      have := drainLoop_processed_le p now rx (m - 1) 1 (processFrame p now msg rs)
      simp only []
      omega
    | none =>
      have := drainLoop_processed_le p now rx m 1 rs
      simp only []
      omega
  · intro hsome hm
    rw [receiveAndProcessCan, if_neg hne]
    obtain ⟨msg, hmsg⟩ := Option.isSome_iff_exists.mp (hsome 0)
    rw [hmsg]
    have hnext : ∀ i, (rx (1 + i)).isSome := fun i => hsome (1 + i)
    have := drainLoop_all_some p now rx (m - 1) 1 (processFrame p now msg rs) hnext
    simp only []
    omega
  · rw [receiveAndProcessCan, if_neg hne]
    cases h0 : rx 0 with
    | some msg => simp
    | none =>
      simp
      omega
  · intro j hj hjm hsome hnone
    rw [receiveAndProcessCan, if_neg hne]
    obtain ⟨jj, rfl⟩ : ∃ jj, j = jj + 1 := ⟨j - 1, by omega⟩
    obtain ⟨msg, hmsg⟩ := Option.isSome_iff_exists.mp (hsome 0 (by omega))
    rw [hmsg]
    have hnext : ∀ i, i < jj → (rx (1 + i)).isSome := by
      intro i hi
      exact hsome (1 + i) (by omega)
    have hnone2 : rx (1 + jj) = none := by rwa [show 1 + jj = jj + 1 by omega]
    have := drainLoop_stops p now rx jj (m - 1) 1 (processFrame p now msg rs)
      (by omega) hnext hnone2
    simp only []
    omega
  · intro h0 hsome
    rw [receiveAndProcessCan, if_neg hne, h0]
    have hnext : ∀ i, (rx (1 + i)).isSome := fun i => hsome (1 + i) (by omega)
    have := drainLoop_all_some p now rx m 1 rs hnext
    simp only []
    omega

/-- Witness for `c4_router`: with `max_frames = 5` and an inexhaustible
source, exactly 5 frames are decoded in 5 receive calls. -/
theorem c4_router_witness :
    (receiveAndProcessCan ProtoChoice.custom CanStatus.RUNNING 100
      (fun _ => some ⟨0, 0, fun _ => 0⟩) 5
      ⟨initialVehicleState, initialFrameLog, 0⟩).framesProcessed = 5 ∧
    (receiveAndProcessCan ProtoChoice.custom CanStatus.RUNNING 100
      (fun _ => some ⟨0, 0, fun _ => 0⟩) 5
      ⟨initialVehicleState, initialFrameLog, 0⟩).receiveCalls = 5 :=
  (c4_router ProtoChoice.custom 100 (fun _ => some ⟨0, 0, fun _ => 0⟩) 5
    ⟨initialVehicleState, initialFrameLog, 0⟩).2.1 (fun _ => rfl) (by decide)

-- ========== Claim C6 ==========

/-- A data length code above 8 behaves exactly like 8 in the custom decoder. -/
theorem dlcClamp_custom (msg : Frame) (s : VehicleState) (h : 8 < msg.data_length_code) :
    processFrameCustom msg s = processFrameCustom { msg with data_length_code := 8 } s := by
  have h1 : 1 ≤ msg.data_length_code := by omega
  have h2 : 2 ≤ msg.data_length_code := by omega
  have h3 : 3 ≤ msg.data_length_code := by omega
  simp [processFrameCustom, Frame.byte, h1, h2, h3]

/-- The custom decoder reads only payload bytes 0-7. -/
theorem noOob_custom (f g : Frame) (s : VehicleState) (hid : f.identifier = g.identifier)
    (hdlc : f.data_length_code = g.data_length_code)
    (hb : ∀ i, i < 8 → f.byte i = g.byte i) :
    processFrameCustom f s = processFrameCustom g s := by
  have h0 := hb 0 (by omega)
  have h1 := hb 1 (by omega)
  have h2 := hb 2 (by omega)
  simp only [processFrameCustom, hid, hdlc, h0, h1, h2]

/-- A data length code above 8 behaves exactly like 8 in the Link decoder. -/
theorem dlcClamp_link (msg : Frame) (s : VehicleState) (h : 8 < msg.data_length_code) :
    processFrameLinkGeneric msg s =
      processFrameLinkGeneric { msg with data_length_code := 8 } s := by
  have h1 : 1 ≤ msg.data_length_code := by omega
  have h2 : 2 ≤ msg.data_length_code := by omega
  have h3 : 3 ≤ msg.data_length_code := by omega
  have h4 : 4 ≤ msg.data_length_code := by omega
  have h6 : 6 ≤ msg.data_length_code := by omega
  simp [processFrameLinkGeneric, Frame.byte, h1, h2, h3, h4, h6]

/-- The Link decoder reads only payload bytes 0-7. -/
theorem noOob_link (f g : Frame) (s : VehicleState) (hid : f.identifier = g.identifier)
    (hdlc : f.data_length_code = g.data_length_code)
    (hb : ∀ i, i < 8 → f.byte i = g.byte i) :
    processFrameLinkGeneric f s = processFrameLinkGeneric g s := by
  have h0 := hb 0 (by omega)
  have h1 := hb 1 (by omega)
  have h2 := hb 2 (by omega)
  have h3 := hb 3 (by omega)
  have h4 := hb 4 (by omega)
  have h5 := hb 5 (by omega)
  simp only [processFrameLinkGeneric, hid, hdlc, h0, h1, h2, h3, h4, h5]

/-- A data length code above 8 behaves exactly like 8 in the Link 2 decoder. -/
theorem dlcClamp_link2 (msg : Frame) (s : VehicleState) (h : 8 < msg.data_length_code) :
    processFrameLinkGeneric2 msg s =
      processFrameLinkGeneric2 { msg with data_length_code := 8 } s := by
  have h1 : 1 ≤ msg.data_length_code := by omega
  have h2 : 2 ≤ msg.data_length_code := by omega
  have h3 : 3 ≤ msg.data_length_code := by omega
  have h4 : 4 ≤ msg.data_length_code := by omega
  have h6 : 6 ≤ msg.data_length_code := by omega
  have h8 : 8 ≤ msg.data_length_code := by omega
  simp [processFrameLinkGeneric2, Frame.byte, h1, h2, h3, h4, h6, h8]

/-- The Link 2 decoder reads only payload bytes 0-7. -/
theorem noOob_link2 (f g : Frame) (s : VehicleState) (hid : f.identifier = g.identifier)
    (hdlc : f.data_length_code = g.data_length_code)
    (hb : ∀ i, i < 8 → f.byte i = g.byte i) :
    processFrameLinkGeneric2 f s = processFrameLinkGeneric2 g s := by
  have h0 := hb 0 (by omega)
  have h1 := hb 1 (by omega)
  have h2 := hb 2 (by omega)
  have h3 := hb 3 (by omega)
  have h4 := hb 4 (by omega)
  have h5 := hb 5 (by omega)
  have h6 := hb 6 (by omega)
  have h7 := hb 7 (by omega)
  simp only [processFrameLinkGeneric2, hid, hdlc, h0, h1, h2, h3, h4, h5, h6, h7]

/-- Claim C6: in each of the three protocol decoders, a frame whose length
field exceeds 8 is decoded exactly as if the length were 8, and the result
depends only on payload bytes 0-7 — for every identifier, two frames with
the same identifier and length whose payloads agree below index 8 decode
identically, so indices 8 and above are never read. -/
theorem c6_length_clamp_no_oob :
    (∀ (msg : Frame) (s : VehicleState), 8 < msg.data_length_code →
      processFrameCustom msg s =
        processFrameCustom { msg with data_length_code := 8 } s) ∧
    (∀ (msg : Frame) (s : VehicleState), 8 < msg.data_length_code →
      processFrameLinkGeneric msg s =
        processFrameLinkGeneric { msg with data_length_code := 8 } s) ∧
    (∀ (msg : Frame) (s : VehicleState), 8 < msg.data_length_code →
      processFrameLinkGeneric2 msg s =
        processFrameLinkGeneric2 { msg with data_length_code := 8 } s) ∧
    (∀ (f g : Frame) (s : VehicleState), f.identifier = g.identifier →
      f.data_length_code = g.data_length_code → (∀ i, i < 8 → f.byte i = g.byte i) →
      processFrameCustom f s = processFrameCustom g s) ∧
    (∀ (f g : Frame) (s : VehicleState), f.identifier = g.identifier →
      f.data_length_code = g.data_length_code → (∀ i, i < 8 → f.byte i = g.byte i) →
      processFrameLinkGeneric f s = processFrameLinkGeneric g s) ∧
    (∀ (f g : Frame) (s : VehicleState), f.identifier = g.identifier →
      f.data_length_code = g.data_length_code → (∀ i, i < 8 → f.byte i = g.byte i) →
      processFrameLinkGeneric2 f s = processFrameLinkGeneric2 g s) :=
  ⟨dlcClamp_custom, dlcClamp_link, dlcClamp_link2, noOob_custom, noOob_link, noOob_link2⟩

/-- Witness for `c6_length_clamp_no_oob`: a concrete rpm frame with length 9
decodes exactly as with length 8. -/
theorem c6_length_clamp_no_oob_witness :
    processFrameCustom ⟨ID_RPM, 9, fun _ => 7⟩ initialVehicleState =
      processFrameCustom ⟨ID_RPM, 8, fun _ => 7⟩ initialVehicleState :=
  c6_length_clamp_no_oob.1 ⟨ID_RPM, 9, fun _ => 7⟩ initialVehicleState (by decide)

-- ========== Claim C9 ==========

/-- Claim C9 counterexample: in the decoder the claim cites
(`processFrameCustom` in `can_handler.cpp`) there is no range validation —
an rpm frame carrying the raw value 65535, far above the repository's rpm
validation limit of 12000, replaces the prior value 1000 instead of being
dropped. -/
theorem c9_no_range_validation_counterexample :
    (processFrameCustom ⟨ID_RPM, 2, fun _ => 0xFF⟩
      { initialVehicleState with rpm := 1000 }).rpm = 65535 ∧
    MAX_REASONABLE_RPM < 65535 ∧
    ({ initialVehicleState with rpm := 1000 } : VehicleState).rpm = 1000 := by
  refine ⟨by decide, by decide, by decide⟩

/-- Claim C9 amended: only the legacy decoder (`src/main.cpp`) performs
range validation — rpm, coolant and oil-pressure values above the fixed
maxima (12000, 1500, 1000) are dropped there, leaving the prior field value
and counting the frame as invalid, while in-range values are stored.  The
modular decoders (`can_handler.cpp`), which the claim cites, store every
length-complete rpm/temperature/pressure value unconditionally. -/
theorem c9_range_validation_split :
    (∀ (now : Nat) (msg : Frame) (s : LegacyVehicleState) (v : ValidationStats)
      (d : DataAge), msg.identifier = LEGACY_ID_RPM → 2 ≤ msg.data_length_code →
      ¬ (msg.byte 0 ||| msg.byte 1 <<< 8) % 65536 ≤ MAX_REASONABLE_RPM →
      (legacyProcessFrame now msg s v d).1.rpm = s.rpm ∧
      (legacyProcessFrame now msg s v d).2.1.invalidRpmCount = v.invalidRpmCount + 1) ∧
    (∀ (now : Nat) (msg : Frame) (s : LegacyVehicleState) (v : ValidationStats)
      (d : DataAge), msg.identifier = LEGACY_ID_COOLANT → 2 ≤ msg.data_length_code →
      ¬ (msg.byte 0 ||| msg.byte 1 <<< 8) % 65536 ≤ MAX_REASONABLE_COOLANT →
      (legacyProcessFrame now msg s v d).1.coolant10x = s.coolant10x ∧
      (legacyProcessFrame now msg s v d).2.1.invalidCoolantCount =
        v.invalidCoolantCount + 1) ∧
    (∀ (now : Nat) (msg : Frame) (s : LegacyVehicleState) (v : ValidationStats)
      (d : DataAge), msg.identifier = LEGACY_ID_OIL_PRES → 2 ≤ msg.data_length_code →
      ¬ (msg.byte 0 ||| msg.byte 1 <<< 8) % 65536 ≤ MAX_REASONABLE_OIL_PRESSURE →
      (legacyProcessFrame now msg s v d).1.oilPressure10kPa = s.oilPressure10kPa ∧
      (legacyProcessFrame now msg s v d).2.1.invalidOilPressureCount =
        v.invalidOilPressureCount + 1) ∧
    (∀ (now : Nat) (msg : Frame) (s : LegacyVehicleState) (v : ValidationStats)
      (d : DataAge), msg.identifier = LEGACY_ID_RPM → 2 ≤ msg.data_length_code →
      (msg.byte 0 ||| msg.byte 1 <<< 8) % 65536 ≤ MAX_REASONABLE_RPM →
      (legacyProcessFrame now msg s v d).1.rpm =
        (msg.byte 0 ||| msg.byte 1 <<< 8) % 65536) ∧
    (∀ (msg : Frame) (s : VehicleState), msg.identifier = ID_RPM →
      2 ≤ msg.data_length_code →
      (processFrameCustom msg s).rpm = (msg.byte 0 ||| msg.byte 1 <<< 8) % 65536) ∧
    (∀ (msg : Frame) (s : VehicleState), msg.identifier = ID_COOLANT →
      2 ≤ msg.data_length_code →
      (processFrameCustom msg s).coolant10x =
        (msg.byte 0 ||| msg.byte 1 <<< 8) % 65536) ∧
    (∀ (msg : Frame) (s : VehicleState), msg.identifier = ID_OIL_PRESSURE →
      2 ≤ msg.data_length_code →
      (processFrameCustom msg s).oilPressure10kPa =
        (msg.byte 0 ||| msg.byte 1 <<< 8) % 65536) := by
  refine ⟨?_, ?_, ?_, ?_, ?_, ?_, ?_⟩
  · intro now msg s v d hid hlen hgt
    simp [legacyProcessFrame, hid, hlen, hgt, LEGACY_ID_RPM, LEGACY_ID_THROTTLE,
      LEGACY_ID_PEDALS]
  · intro now msg s v d hid hlen hgt
    simp [legacyProcessFrame, hid, hlen, hgt, LEGACY_ID_COOLANT, LEGACY_ID_THROTTLE,
      LEGACY_ID_PEDALS, LEGACY_ID_RPM]
  · intro now msg s v d hid hlen hgt
    simp [legacyProcessFrame, hid, hlen, hgt, LEGACY_ID_OIL_PRES, LEGACY_ID_THROTTLE,
      LEGACY_ID_PEDALS, LEGACY_ID_RPM, LEGACY_ID_COOLANT, LEGACY_ID_REV_LIM,
      LEGACY_ID_ALS]
  · intro now msg s v d hid hlen hle
    simp [legacyProcessFrame, hid, hlen, hle, LEGACY_ID_RPM, LEGACY_ID_THROTTLE,
      LEGACY_ID_PEDALS]
  · intro msg s hid hlen
    simp [processFrameCustom, hid, hlen, ID_RPM, ID_THROTTLE, ID_PEDALS]
  · intro msg s hid hlen
    simp [processFrameCustom, hid, hlen, ID_COOLANT, ID_THROTTLE, ID_PEDALS, ID_RPM]
  · intro msg s hid hlen
    simp [processFrameCustom, hid, hlen, ID_OIL_PRESSURE, ID_THROTTLE, ID_PEDALS,
      ID_RPM, ID_COOLANT]

/-- Witness for `c9_range_validation_split`: the legacy decoder drops an rpm
of 65535 (above 12000), keeping the prior value 1000 and counting the frame
as invalid. -/
theorem c9_range_validation_split_witness :
    (legacyProcessFrame 0 ⟨LEGACY_ID_RPM, 2, fun _ => 0xFF⟩
      { rpm := 1000 } {} {}).1.rpm = ({ rpm := 1000 } : LegacyVehicleState).rpm ∧
    (legacyProcessFrame 0 ⟨LEGACY_ID_RPM, 2, fun _ => 0xFF⟩
      { rpm := 1000 } {} {}).2.1.invalidRpmCount =
      ValidationStats.invalidRpmCount {} + 1 :=
  c9_range_validation_split.1 0 ⟨LEGACY_ID_RPM, 2, fun _ => 0xFF⟩
    { rpm := 1000 } {} {} rfl (by decide) (by decide)
